import Mathlib

/-!
Verification of the `tmp_env` crate (src/lib.rs): scoped guards that mutate
process-global state (environment variables, working directory, temporary
directories) and automatically revert the mutation when dropped.

The embedding makes the process-global state explicit:
* the process environment table is an association list from keys to OS values,
  where an OS value is either a valid Unicode string or a non-Unicode byte
  sequence (`std::env::var` fails on the latter with `VarError::NotUnicode`);
* the working directory subsystem is a record of the current directory and the
  set of directories that exist and are accessible;
* the filesystem for the temporary-directory guard is a record of the OS temp
  root and the sets of existing directories and files (paths are component
  lists);
* randomness (`thread_rng`) is an explicit input stream of naturals;
* a `Drop` implementation is a state transformer whose result is either a new
  state or a fatal halt (`expect` panics), which is distinct from any
  returned error value.
-/

namespace TmpEnv

/-- An OS string value as stored in the process environment: either valid
Unicode or an arbitrary non-Unicode byte sequence. -/
inductive OsValue where
  | unicode (s : String)
  | nonUnicode (bytes : List Nat)
deriving DecidableEq

/-- The process environment table: key/value pairs. -/
abbrev Env := List (String × OsValue)

/-- Look a key up in the environment table (first binding wins). -/
def envGet (e : Env) (k : String) : Option OsValue :=
  match e with
  | [] => none
  | (k2, v) :: rest => if k2 = k then some v else envGet rest k

/-- OS-level removal of a key from the environment table
(models `std::env::remove_var`). -/
def envRemove (e : Env) (k : String) : Env :=
  match e with
  | [] => []
  | (k2, v) :: rest =>
      if k2 = k then envRemove rest k else (k2, v) :: envRemove rest k

/-- OS-level update of a key in the environment table
(models `std::env::set_var`). -/
def envSet (e : Env) (k : String) (v : OsValue) : Env :=
  (k, v) :: envRemove e k

/-- The error type of `std::env::var`: the variable is absent, or present but
not valid Unicode. -/
inductive VarError where
  | notPresent
  | notUnicode (bytes : List Nat)
deriving DecidableEq

/-- Models `std::env::var`: `Ok` exactly when the key is present with a valid
Unicode value. -/
def env_var (e : Env) (k : String) : Except VarError String :=
  match envGet e k with
  | none => Except.error VarError.notPresent
  | some (OsValue.unicode s) => Except.ok s
  | some (OsValue.nonUnicode b) => Except.error (VarError.notUnicode b)

/-- Models `std::env::var(key).ok()` as used by `set_var` and `remove_var` to
capture the previous value. -/
def varOk (e : Env) (k : String) : Option String :=
  (env_var e k).toOption

/-- The guard `CurrentEnv(OsString, Option<String>)`: the key and the captured
previous value (`None` = absent or non-Unicode before the call). -/
structure CurrentEnv where
  key : String
  prev : Option String
deriving DecidableEq

/-- `tmp_env::set_var`: capture `std::env::var(key).ok()`, set the variable,
return the guard. Mutation of the environment is made explicit by returning
the new environment alongside the guard. -/
def set_var (e : Env) (k : String) (v : OsValue) : CurrentEnv × Env :=
  let previous_val := varOk e k
  (CurrentEnv.mk k previous_val, envSet e k v)

/-- `tmp_env::remove_var`: capture `std::env::var(key).ok()`, remove the
variable, return the guard. -/
def remove_var (e : Env) (k : String) : CurrentEnv × Env :=
  let previous_val := varOk e k
  (CurrentEnv.mk k previous_val, envRemove e k)

/-- `impl Drop for CurrentEnv`: restore the previous value if one was
captured, otherwise remove the variable entirely. -/
def CurrentEnv.drop (g : CurrentEnv) (e : Env) : Env :=
  match g.prev with
  | some previous_val => envSet e g.key (OsValue.unicode previous_val)
  | none => envRemove e g.key

/-! Sample data used by the witness theorems. -/

/-- A sample key for witnesses. -/
def sampleKey : String := "TEST_TMP_ENV"

/-- A sample Unicode value for witnesses. -/
def sampleVal : OsValue := OsValue.unicode "myvalue"

/-- A sample environment where the key is present with the empty string. -/
def sampleEnvEmptyStr : Env := [(sampleKey, OsValue.unicode "")]

/-- A sample environment where the key is absent. -/
def sampleEnvAbsent : Env := []

/-- A sample environment where the key holds a non-Unicode value. -/
def sampleEnvNonUnicode : Env := [(sampleKey, OsValue.nonUnicode [255, 254])]

/-- A filesystem path, as a list of components from the root. -/
abbrev Path := List String

/-- I/O error kinds relevant to this crate's failure modes. -/
inductive IOError where
  | notFound
  | alreadyExists
deriving DecidableEq

/-- The working-directory subsystem: the process's current directory and the
set of directories that exist and are accessible. -/
structure DirState where
  cwd : Path
  dirs : List Path
deriving DecidableEq

/-- Models `std::env::current_dir()`: a non-mutating read that fails when the
current directory is gone (deleted out from under the process). -/
def std_current_dir (s : DirState) : Except IOError Path :=
  if s.cwd ∈ s.dirs then Except.ok s.cwd else Except.error IOError.notFound

/-- Models `std::env::set_current_dir`: switches to `p` when it is an
existing accessible directory, otherwise fails leaving the state unchanged. -/
def std_set_current_dir (s : DirState) (p : Path) :
    Except IOError Unit × DirState :=
  if p ∈ s.dirs then (Except.ok (), DirState.mk p s.dirs)
  else (Except.error IOError.notFound, s)

/-- The guard `CurrentDir(PathBuf)`: holds the working directory that was in
effect before the switch. -/
structure CurrentDir where
  path : Path
deriving DecidableEq

/-- `tmp_env::set_current_dir`: read the current directory (propagating
failure), switch to the given path (propagating failure), and return a guard
holding the directory read before the switch. -/
def set_current_dir (s : DirState) (path : Path) :
    Except IOError CurrentDir × DirState :=
  match std_current_dir s with
  | Except.error e => (Except.error e, s)
  | Except.ok current_dir =>
    match std_set_current_dir s path with
    | (Except.error e, s2) => (Except.error e, s2)
    | (Except.ok _, s2) => (Except.ok (CurrentDir.mk current_dir), s2)

/-- The outcome of running a `Drop` implementation: either the new state, or
a fatal halt of the whole program (an `expect` panic). A fatal halt is a
distinct outcome, not an error value handed back to the caller. -/
inductive DropResult (α : Type) where
  | ok (s : α)
  | fatal (msg : String)
deriving DecidableEq

/-- The `expect` message of `impl Drop for CurrentDir`. -/
def currentDirFatalMsg : String := "cannot go back to the previous directory"

/-- `impl Drop for CurrentDir`: switch back to the memorized directory; on
failure the program halts via `expect`. -/
def CurrentDir.drop (g : CurrentDir) (s : DirState) : DropResult DirState :=
  match std_set_current_dir s g.path with
  | (Except.ok _, s2) => DropResult.ok s2
  | (Except.error _, _) => DropResult.fatal currentDirFatalMsg

/-- The character set of `rand::distributions::Alphanumeric`: uppercase
letters, lowercase letters and digits. -/
def ALPHANUMERIC : List Char :=
  ['A', 'B', 'C', 'D', 'E', 'F', 'G', 'H', 'I', 'J', 'K', 'L', 'M',
   'N', 'O', 'P', 'Q', 'R', 'S', 'T', 'U', 'V', 'W', 'X', 'Y', 'Z',
   'a', 'b', 'c', 'd', 'e', 'f', 'g', 'h', 'i', 'j', 'k', 'l', 'm',
   'n', 'o', 'p', 'q', 'r', 's', 't', 'u', 'v', 'w', 'x', 'y', 'z',
   '0', '1', '2', '3', '4', '5', '6', '7', '8', '9']

/-- One draw from the `Alphanumeric` distribution, given one value from the
random source: an index into the 62-character alphabet. -/
def sampleAlphanumeric (r : Nat) : Char :=
  ALPHANUMERIC.getD (r % 62) 'A'

/-- `random_path`: samples the `Alphanumeric` distribution ten times from the
random source and collects the characters into a (single-component) path.
It is pure in the random source `rng`. -/
def random_path (rng : Nat → Nat) : String :=
  String.mk ((List.range 10).map (fun i => sampleAlphanumeric (rng i)))

/-- The filesystem as seen by the temporary-directory guard: the OS temp
root and the sets of existing directories and files. -/
structure FsState where
  tempRoot : Path
  dirs : List Path
  files : List Path
deriving DecidableEq

/-- Models `std::fs::create_dir`: fails if the path already exists or its
parent is missing (leaving the filesystem unchanged), otherwise records the
new empty directory. -/
def fs_create_dir (s : FsState) (p : Path) : Except IOError Unit × FsState :=
  if p ∈ s.dirs ∨ p ∈ s.files then (Except.error IOError.alreadyExists, s)
  else if p.dropLast ∈ s.dirs then
    (Except.ok (), FsState.mk s.tempRoot (p :: s.dirs) s.files)
  else (Except.error IOError.notFound, s)

/-- The guard `TmpDir(PathBuf)`: holds the path of the created temporary
directory. -/
structure TmpDir where
  path : Path
deriving DecidableEq

/-- `tmp_env::create_temp_dir`: join the OS temp root with a fresh random
identifier, create that directory (propagating failure), and return a guard
holding the created path. -/
def create_temp_dir (s : FsState) (rng : Nat → Nat) :
    Except IOError TmpDir × FsState :=
  let tmp_dir := s.tempRoot
  let tmp_path := tmp_dir ++ [random_path rng]
  match fs_create_dir s tmp_path with
  | (Except.error e, s2) => (Except.error e, s2)
  | (Except.ok _, s2) => (Except.ok (TmpDir.mk tmp_path), s2)

/-- The filesystem after recursive removal of the subtree rooted at `p`:
every directory and file of which `p` is a prefix is gone, everything else
is retained. -/
def removeSubtreeState (p : Path) (s : FsState) : FsState :=
  FsState.mk s.tempRoot
    (s.dirs.filter (fun d => !(p.isPrefixOf d)))
    (s.files.filter (fun f => !(p.isPrefixOf f)))

/-- Does anything (directory or file) still exist at or under `p`? -/
def existsUnder (p : Path) (s : FsState) : Bool :=
  s.dirs.any (fun d => p.isPrefixOf d) || s.files.any (fun f => p.isPrefixOf f)

/-- Models `std::fs::remove_dir_all`: removes the directory and everything
under it; fails when the directory does not exist. -/
def fs_remove_dir_all (s : FsState) (p : Path) :
    Except IOError Unit × FsState :=
  if p ∈ s.dirs then (Except.ok (), removeSubtreeState p s)
  else (Except.error IOError.notFound, s)

/-- The `expect` message of `impl Drop for TmpDir`. -/
def tmpDirFatalMsg : String := "cannot delete the tmp dir"

/-- `impl Drop for TmpDir`: recursively delete the temporary directory; on
failure the program halts via `expect`. -/
def TmpDir.drop (g : TmpDir) (s : FsState) : DropResult FsState :=
  match fs_remove_dir_all s g.path with
  | (Except.ok _, s2) => DropResult.ok s2
  | (Except.error _, _) => DropResult.fatal tmpDirFatalMsg

/-- A sample directory path for witnesses. -/
def dirA : Path := ["home", "user"]

/-- A second sample directory path for witnesses. -/
def dirB : Path := ["home", "user", "src"]

/-- A sample directory state for witnesses: currently in `dirA`, both
sample directories exist. -/
def sampleDirState : DirState := DirState.mk dirA [dirA, dirB]

/-- A directory path that does not exist in the sample states. -/
def dirMissing : Path := ["nonexistent"]

/-- A constant random source for witnesses. -/
def zeroRng : Nat → Nat := fun _ => 0

/-- A sample filesystem for witnesses: only the temp root exists. -/
def sampleFsState : FsState := FsState.mk ["tmp"] [["tmp"]] []

/-- The candidate path of `create_temp_dir`: the OS temp root joined with
the freshly drawn random identifier. -/
def tmpCandidate (s : FsState) (rng : Nat → Nat) : Path :=
  s.tempRoot ++ [random_path rng]

/-- The filesystem after the candidate directory has been created: exactly
one new empty directory, everything else untouched. -/
def fsAfterCreate (s : FsState) (rng : Nat → Nat) : FsState :=
  FsState.mk s.tempRoot (tmpCandidate s rng :: s.dirs) s.files

/-! Basic lemmas about the environment table. -/

theorem envGet_envRemove_self (e : Env) (k : String) :
    envGet (envRemove e k) k = none := by
  induction e with
  | nil => rfl
  | cons hd tl ih =>
    obtain ⟨k2, v⟩ := hd
    by_cases h : k2 = k
    · simp [envRemove, h, ih]
    · simp [envRemove, envGet, h, ih]

theorem envGet_envSet_self (e : Env) (k : String) (v : OsValue) :
    envGet (envSet e k v) k = some v := by
  simp [envSet, envGet]

/-- C1: if key `k` previously held the Unicode value `p` (possibly empty),
then after the guard returned by `set_var k v` is dropped, reading `k` via
`std::env::var` yields exactly `p` again. -/
theorem set_var_drop_restores_previous (e : Env) (k : String) (p : String)
    (v : OsValue) (h : envGet e k = some (OsValue.unicode p)) :
    env_var (CurrentEnv.drop (set_var e k v).1 (set_var e k v).2) k
      = Except.ok p := by
  simp [set_var, varOk, env_var, h, Except.toOption, CurrentEnv.drop,
    envGet_envSet_self]

/-- Witness for C1 at a concrete input where the previous value is the empty
string. -/
theorem set_var_drop_restores_previous_witness :
    envGet sampleEnvEmptyStr sampleKey = some (OsValue.unicode "") ∧
    env_var
      (CurrentEnv.drop (set_var sampleEnvEmptyStr sampleKey sampleVal).1
        (set_var sampleEnvEmptyStr sampleKey sampleVal).2) sampleKey
      = Except.ok "" :=
  ⟨by decide,
    set_var_drop_restores_previous sampleEnvEmptyStr sampleKey ""
      sampleVal (by decide)⟩

/-- C2: if key `k` was absent before `set_var k v`, then after the guard is
dropped `k` is removed entirely: it is not in the table at all, and reading it
reports `NotPresent` (not an empty string). -/
theorem set_var_drop_leaves_unset (e : Env) (k : String) (v : OsValue)
    (h : envGet e k = none) :
    envGet (CurrentEnv.drop (set_var e k v).1 (set_var e k v).2) k = none ∧
    env_var (CurrentEnv.drop (set_var e k v).1 (set_var e k v).2) k
      = Except.error VarError.notPresent := by
  have hget :
      envGet (CurrentEnv.drop (set_var e k v).1 (set_var e k v).2) k
        = none := by
    simp [set_var, varOk, env_var, h, Except.toOption, CurrentEnv.drop,
      envGet_envRemove_self]
  exact ⟨hget, by simp [env_var, hget]⟩

/-- Witness for C2 at a concrete input. -/
theorem set_var_drop_leaves_unset_witness :
    envGet sampleEnvAbsent sampleKey = none ∧
    (envGet
        (CurrentEnv.drop (set_var sampleEnvAbsent sampleKey sampleVal).1
          (set_var sampleEnvAbsent sampleKey sampleVal).2) sampleKey = none ∧
      env_var
        (CurrentEnv.drop (set_var sampleEnvAbsent sampleKey sampleVal).1
          (set_var sampleEnvAbsent sampleKey sampleVal).2) sampleKey
        = Except.error VarError.notPresent) :=
  ⟨by decide,
    set_var_drop_leaves_unset sampleEnvAbsent sampleKey sampleVal (by decide)⟩

/-- C3: while the guard returned by `remove_var k` is live, `k` reads as
unset; dropping the guard restores exactly the captured previous reading
(`Some p` is set back to `p`, absence stays absence, so restoration is an
idempotent no-op for a key that was never set); and `remove_var` produces the
very same guard as `set_var` on the same prior environment, so the two share
one restore algorithm. -/
theorem remove_var_live_unset_drop_restores (e : Env) (k : String)
    (v : OsValue) :
    envGet (remove_var e k).2 k = none ∧
    envGet (CurrentEnv.drop (remove_var e k).1 (remove_var e k).2) k
      = (varOk e k).map OsValue.unicode ∧
    (remove_var e k).1 = (set_var e k v).1 := by
  refine ⟨envGet_envRemove_self e k, ?_, rfl⟩
  cases hv : varOk e k with
  | none =>
      simp [remove_var, CurrentEnv.drop, hv, envGet_envRemove_self]
  | some p =>
      simp [remove_var, CurrentEnv.drop, hv, envGet_envSet_self]

/-- Witness for C3 at a concrete input with a previous value present. -/
theorem remove_var_live_unset_drop_restores_witness :
    envGet (remove_var sampleEnvEmptyStr sampleKey).2 sampleKey = none ∧
    envGet
        (CurrentEnv.drop (remove_var sampleEnvEmptyStr sampleKey).1
          (remove_var sampleEnvEmptyStr sampleKey).2) sampleKey
      = (varOk sampleEnvEmptyStr sampleKey).map OsValue.unicode ∧
    (remove_var sampleEnvEmptyStr sampleKey).1
      = (set_var sampleEnvEmptyStr sampleKey sampleVal).1 :=
  remove_var_live_unset_drop_restores sampleEnvEmptyStr sampleKey sampleVal

/-- C4: if the previous value of `k` exists but is not valid Unicode, both
`set_var` and `remove_var` capture it as `None` (because
`std::env::var(key).ok()` discards the `NotUnicode` error), so dropping the
guard removes `k` entirely instead of restoring the non-Unicode value. -/
theorem non_unicode_previous_captured_as_absent (e : Env) (k : String)
    (b : List Nat) (v : OsValue)
    (h : envGet e k = some (OsValue.nonUnicode b)) :
    (set_var e k v).1.prev = none ∧
    (remove_var e k).1.prev = none ∧
    envGet (CurrentEnv.drop (set_var e k v).1 (set_var e k v).2) k = none ∧
    envGet (CurrentEnv.drop (remove_var e k).1 (remove_var e k).2) k
      = none := by
  have hprev : varOk e k = none := by
    simp [varOk, env_var, h, Except.toOption]
  refine ⟨by simp [set_var, hprev], by simp [remove_var, hprev], ?_, ?_⟩
  · simp [set_var, CurrentEnv.drop, hprev, envGet_envRemove_self]
  · simp [remove_var, CurrentEnv.drop, hprev, envGet_envRemove_self]

/-- Witness for C4 at a concrete input holding non-Unicode bytes. -/
theorem non_unicode_previous_captured_as_absent_witness :
    envGet sampleEnvNonUnicode sampleKey
      = some (OsValue.nonUnicode [255, 254]) ∧
    ((set_var sampleEnvNonUnicode sampleKey sampleVal).1.prev = none ∧
      (remove_var sampleEnvNonUnicode sampleKey).1.prev = none ∧
      envGet
        (CurrentEnv.drop (set_var sampleEnvNonUnicode sampleKey sampleVal).1
          (set_var sampleEnvNonUnicode sampleKey sampleVal).2) sampleKey
        = none ∧
      envGet
        (CurrentEnv.drop (remove_var sampleEnvNonUnicode sampleKey).1
          (remove_var sampleEnvNonUnicode sampleKey).2) sampleKey = none) :=
  ⟨by decide,
    non_unicode_previous_captured_as_absent sampleEnvNonUnicode sampleKey
      [255, 254] sampleVal (by decide)⟩

/-! Lemmas about paths and the filesystem. -/

theorem isPrefixOf_self (l : Path) : l.isPrefixOf l = true := by
  induction l with
  | nil => rfl
  | cons hd tl ih => simp [List.isPrefixOf, ih]

theorem any_isPrefixOf_filter_not (p : Path) (l : List Path) :
    (l.filter (fun d => !(p.isPrefixOf d))).any (fun d => p.isPrefixOf d)
      = false := by
  induction l with
  | nil => rfl
  | cons hd tl ih =>
    by_cases h : p.isPrefixOf hd
    · simp [List.filter_cons, h, ih]
    · simp [List.filter_cons, h, ih]

theorem existsUnder_removeSubtreeState (p : Path) (s : FsState) :
    existsUnder p (removeSubtreeState p s) = false := by
  simp [existsUnder, removeSubtreeState, any_isPrefixOf_filter_not]

/-- C5: when `set_current_dir d` succeeds, the guard holds exactly the
working directory in effect immediately before the switch (it is captured
strictly before the change to `d`), and dropping the guard restores that
directory as the working directory. -/
theorem set_current_dir_drop_restores (s : DirState) (d : Path)
    (g : CurrentDir) (s1 : DirState)
    (h : set_current_dir s d = (Except.ok g, s1)) :
    g.path = s.cwd ∧
    CurrentDir.drop g s1 = DropResult.ok (DirState.mk s.cwd s.dirs) := by
  obtain ⟨gp⟩ := g
  by_cases h1 : s.cwd ∈ s.dirs
  · by_cases h2 : d ∈ s.dirs
    · simp [set_current_dir, std_current_dir, std_set_current_dir, h1, h2]
        at h
      obtain ⟨hg, hs1⟩ := h
      subst hg
      subst hs1
      simp [CurrentDir.drop, std_set_current_dir, h1]
    · simp [set_current_dir, std_current_dir, std_set_current_dir, h1, h2]
        at h
  · simp [set_current_dir, std_current_dir, h1] at h

/-- Witness for C5 at a concrete input. -/
theorem set_current_dir_drop_restores_witness :
    (CurrentDir.mk dirA).path = sampleDirState.cwd ∧
    CurrentDir.drop (CurrentDir.mk dirA) (DirState.mk dirB [dirA, dirB])
      = DropResult.ok (DirState.mk sampleDirState.cwd sampleDirState.dirs) :=
  set_current_dir_drop_restores sampleDirState dirB (CurrentDir.mk dirA)
    (DirState.mk dirB [dirA, dirB]) (by rfl)

/-- C6: when the target directory does not exist (or is inaccessible),
`set_current_dir` returns an `IOError`, no guard is created, and the
working-directory state is left completely unchanged. -/
theorem set_current_dir_failure_no_mutation (s : DirState) (d : Path)
    (h : d ∉ s.dirs) :
    (set_current_dir s d).1 = Except.error IOError.notFound ∧
    (set_current_dir s d).2 = s := by
  by_cases h1 : s.cwd ∈ s.dirs
  · simp [set_current_dir, std_current_dir, std_set_current_dir, h1, h]
  · simp [set_current_dir, std_current_dir, h1]

/-- Witness for C6 at a concrete input. -/
theorem set_current_dir_failure_no_mutation_witness :
    dirMissing ∉ sampleDirState.dirs ∧
    ((set_current_dir sampleDirState dirMissing).1
        = Except.error IOError.notFound ∧
      (set_current_dir sampleDirState dirMissing).2 = sampleDirState) :=
  ⟨by decide,
    set_current_dir_failure_no_mutation sampleDirState dirMissing (by decide)⟩

/-- C7: the candidate path is the OS temp root joined with the freshly
drawn random identifier, and `create_temp_dir` returns exactly the outcome
of creating that directory: an `IOError` (and no guard) exactly when
creation fails, and then the filesystem is left unchanged, so no directory
is created; on success the guard holds the candidate path and the
filesystem gains exactly the new empty directory; releasing the guard on
the post-creation filesystem removes the directory together with everything
under it, after which nothing exists at or under the path. -/
theorem create_temp_dir_spec (s : FsState) (rng : Nat → Nat) :
    create_temp_dir s rng
      = ((fs_create_dir s (tmpCandidate s rng)).1.map
            (fun _ => TmpDir.mk (tmpCandidate s rng)),
          (fs_create_dir s (tmpCandidate s rng)).2) ∧
    (create_temp_dir s rng).2
      = (if (create_temp_dir s rng).1.isOk then fsAfterCreate s rng
          else s) ∧
    TmpDir.drop (TmpDir.mk (tmpCandidate s rng)) (fsAfterCreate s rng)
      = DropResult.ok
          (removeSubtreeState (tmpCandidate s rng) (fsAfterCreate s rng)) ∧
    existsUnder (tmpCandidate s rng)
        (removeSubtreeState (tmpCandidate s rng) (fsAfterCreate s rng))
      = false := by
  refine ⟨?_, ?_, ?_, existsUnder_removeSubtreeState _ _⟩
  · by_cases h1 : (s.tempRoot ++ [random_path rng]) ∈ s.dirs ∨
        (s.tempRoot ++ [random_path rng]) ∈ s.files
    · simp [create_temp_dir, fs_create_dir, tmpCandidate, h1, Except.map]
    · by_cases h2 : s.tempRoot ∈ s.dirs
      · simp [create_temp_dir, fs_create_dir, tmpCandidate, h1, h2,
          Except.map]
      · simp [create_temp_dir, fs_create_dir, tmpCandidate, h1, h2,
          Except.map]
  · by_cases h1 : (s.tempRoot ++ [random_path rng]) ∈ s.dirs ∨
        (s.tempRoot ++ [random_path rng]) ∈ s.files
    · simp [create_temp_dir, fs_create_dir, fsAfterCreate, tmpCandidate, h1,
        Except.isOk, Except.toBool]
    · by_cases h2 : s.tempRoot ∈ s.dirs
      · simp [create_temp_dir, fs_create_dir, fsAfterCreate, tmpCandidate,
          h1, h2, Except.isOk, Except.toBool]
      · simp [create_temp_dir, fs_create_dir, fsAfterCreate, tmpCandidate,
          h1, h2, Except.isOk, Except.toBool]
  · simp [TmpDir.drop, fs_remove_dir_all, fsAfterCreate]

/-- C8: when a guard release cannot perform its restoration — the prior
working directory no longer exists for `CurrentDir`, or the temporary
directory no longer exists for `TmpDir` — the drop halts the program
(`expect` panic) instead of continuing or returning an error value. -/
theorem release_failure_halts (sd : DirState) (gd : CurrentDir)
    (sf : FsState) (gt : TmpDir)
    (h1 : gd.path ∉ sd.dirs) (h2 : gt.path ∉ sf.dirs) :
    CurrentDir.drop gd sd = DropResult.fatal currentDirFatalMsg ∧
    TmpDir.drop gt sf = DropResult.fatal tmpDirFatalMsg := by
  constructor
  · simp [CurrentDir.drop, std_set_current_dir, h1]
  · simp [TmpDir.drop, fs_remove_dir_all, h2]

/-- Witness for C8 at a concrete input. -/
theorem release_failure_halts_witness :
    (CurrentDir.mk dirMissing).path ∉ sampleDirState.dirs ∧
    (TmpDir.mk dirMissing).path ∉ sampleFsState.dirs ∧
    (CurrentDir.drop (CurrentDir.mk dirMissing) sampleDirState
        = DropResult.fatal currentDirFatalMsg ∧
      TmpDir.drop (TmpDir.mk dirMissing) sampleFsState
        = DropResult.fatal tmpDirFatalMsg) :=
  ⟨by decide, by decide,
    release_failure_halts sampleDirState (CurrentDir.mk dirMissing)
      sampleFsState (TmpDir.mk dirMissing) (by decide) (by decide)⟩

theorem sampleAlphanumeric_isAlnum (r : Nat) :
    ((sampleAlphanumeric r).isUpper || (sampleAlphanumeric r).isLower
      || (sampleAlphanumeric r).isDigit) = true := by
  have key : ∀ i, i < 62 →
      ((ALPHANUMERIC.getD i 'A').isUpper
        || (ALPHANUMERIC.getD i 'A').isLower
        || (ALPHANUMERIC.getD i 'A').isDigit) = true := by decide
  have h62 : r % 62 < 62 := Nat.mod_lt r (by norm_num)
  simpa [sampleAlphanumeric] using key (r % 62) h62

/-- C9: for every random source, `random_path` yields a string of exactly 10
characters, each an uppercase letter, a lowercase letter or a digit; the
function is pure (its only input is the random source). -/
theorem random_path_len10_alphanumeric (rng : Nat → Nat) :
    (random_path rng).length = 10 ∧
    ((random_path rng).toList.all
      (fun c => c.isUpper || c.isLower || c.isDigit)) = true := by
  constructor
  · show ((List.range 10).map (fun i => sampleAlphanumeric (rng i))).length
        = 10
    simp
  · show ((List.range 10).map (fun i => sampleAlphanumeric (rng i))).all
        (fun c => c.isUpper || c.isLower || c.isDigit) = true
    rw [List.all_eq_true]
    intro c hc
    rcases List.mem_map.mp hc with ⟨i, hi, hci⟩
    subst hci
    exact sampleAlphanumeric_isAlnum (rng i)

end TmpEnv
